import Mathlib

/-
Verification development for the Giscus diagnostic script `check-giscus.js`
of the ddnio.github.io repository.

The script is a single linear Playwright session.  We give it a shallow
embedding as a pure trace semantics:

* An `Env` packages everything the run observes from the outside world:
  the browser events delivered to the four registered listeners, the
  results of the three `page.$` DOM queries (together with the attribute
  values subsequently read from the returned element handles), the
  timestamp taken by `new Date().toISOString()`, and an optional failure
  point `failAt = some (n, msg)` meaning that the `n`-th fallible
  operation executed inside the `try` block throws with message `msg`.

* The body of the `try` block is compiled (from the source, line by line)
  into a list of operations `opsOf env : List Op`; an operation is either
  `Op.log e` (an infallible `console.log`) or `Op.await e` (a fallible
  awaited / throwing operation that produces the effect `e` when it
  succeeds).  The whole operation list is a pure function of `Env`
  because no branch condition of the script depends on the result of an
  earlier fallible operation beyond the data recorded in `Env`.

* `execOps` runs the operations in order, stopping at the failure point,
  and `run env` is the complete effect trace of one invocation:
  the setup effects (`chromium.launch`, `newContext`, `newPage`), the
  effects of the `try` body, the `catch` handler's single
  `console.error` when the body threw, and the `finally` block's
  `browser.close()`.

JavaScript string semantics are modelled on Unicode code points
(`String.length`, `substring`, `includes` of the script only ever meet
code points below 0x10000, where the JS UTF-16 view agrees).
-/

namespace CheckGiscus

/-! ### JavaScript string helpers -/

/-- Does `pat` occur at the head of `s`? (helper for `jsIncludes`). -/
def leadsWith : List Char → List Char → Bool
  | _, [] => true
  | [], _ :: _ => false
  | a :: s, b :: t => a == b && leadsWith s t

/-- Does `pat` occur somewhere inside `s`? (helper for `jsIncludes`). -/
def containsSeq : List Char → List Char → Bool
  | [], pat => pat.isEmpty
  | c :: s, pat => leadsWith (c :: s) pat || containsSeq s pat

/-- JavaScript `String.prototype.includes`. -/
def jsIncludes (s pat : String) : Bool :=
  containsSeq s.toList pat.toList

/-- How JavaScript template literals print a possibly-`null` string. -/
def strOfOpt : Option String → String
  | none => "null"
  | some s => s

/-- JavaScript truthiness of a possibly-`null` string (`""` is falsy). -/
def jsTruthyStr : Option String → Bool
  | none => false
  | some s => !(s == "")

/-- The script's `iframeSrc ? iframeSrc.length : 0`. -/
def jsCondLen (o : Option String) : Nat :=
  if jsTruthyStr o then (o.getD "").length else 0

/-- JavaScript `s.substring(0, n)`. -/
def jsSubstringTo (s : String) (n : Nat) : String :=
  String.mk (s.toList.take n)

/-! ### Records collected by the event listeners -/

/-- The record pushed by the `page.on('request')` listener. -/
structure ReqRecord where
  url : String
  method : String
  headers : List (String × String)
  postData : Option String
deriving DecidableEq

/-- The record pushed by the `page.on('response')` listener. -/
structure RespRecord where
  url : String
  status : Nat
  statusText : String
deriving DecidableEq

/-- The location object attached to a console message. -/
structure MsgLocation where
  url : String
  lineNumber : Nat
  columnNumber : Nat
deriving DecidableEq

/-- The record pushed by the `page.on('console')` listener. -/
structure ConsoleRecord where
  type : String
  text : String
  location : MsgLocation
deriving DecidableEq

/-- The record pushed by the `page.on('pageerror')` listener. -/
structure PageErr where
  message : String
  stack : Option String
deriving DecidableEq

/-- One browser event delivered to one of the four registered listeners. -/
inductive PageEvent where
  | request (url method : String) (headers : List (String × String))
      (postData : Option String)
  | response (url : String) (status : Nat) (statusText : String)
  | consoleMsg (type text : String) (location : MsgLocation)
  | pageError (message : String) (stack : Option String)
deriving DecidableEq

/-- The diagnostic report object built at the end of the `try` block. -/
structure Report where
  timestamp : String
  url : String
  giscusScript : String
  giscusIframe : String
  requests : List ReqRecord
  responses : List RespRecord
  consoleLogs : List ConsoleRecord
  pageErrors : List PageErr
deriving DecidableEq

/-! ### Effects -/

/-- One observable effect of the script. -/
inductive Effect where
  | launch (headless : Bool)
  | newContext
  | newPage
  | navigate (url waitUntil : String) (timeout : Nat)
  | wait (ms : Nat)
  | query (selector : String)
  | getAttr (selector attr : String)
  | evalAttrs (selector : String)
  | innerHTML (selector : String)
  | consoleLog (text : String)
  | consoleError (text : String)
  | writeFile (path : String) (content : Report)
  | screenshot (path : String) (fullPage : Bool)
  | closeBrowser
deriving DecidableEq

/-! ### The four event listeners -/

/-- The four collected lists (`requests`, `responses`, `consoleLogs`,
`pageErrors` of the source). -/
structure CollectState where
  requests : List ReqRecord
  responses : List RespRecord
  consoleLogs : List ConsoleRecord
  pageErrors : List PageErr
deriving DecidableEq

/-- The empty state the four arrays start from. -/
def initState : CollectState := ⟨[], [], [], []⟩

/-- One listener invocation: the matching listener pushes its record and
prints its line, exactly as in lines 9-51 of the source. -/
def processEvent (st : CollectState) : PageEvent → CollectState × List Effect
  | PageEvent.request url method headers postData =>
      ({ st with requests := st.requests ++ [⟨url, method, headers, postData⟩] },
       [Effect.consoleLog ("→ " ++ method ++ " " ++ url)])
  | PageEvent.response url status statusText =>
      ({ st with responses := st.responses ++ [⟨url, status, statusText⟩] },
       [Effect.consoleLog ("← " ++ toString status ++ " " ++ url)])
  | PageEvent.consoleMsg type text location =>
      ({ st with consoleLogs := st.consoleLogs ++ [⟨type, text, location⟩] },
       [Effect.consoleLog ("[" ++ type.toUpper ++ "] " ++ text)])
  | PageEvent.pageError message stack =>
      ({ st with pageErrors := st.pageErrors ++ [⟨message, stack⟩] },
       [Effect.consoleError ("[PAGE ERROR] " ++ message)])

/-- State part of one listener invocation. -/
def collectStep (st : CollectState) (e : PageEvent) : CollectState :=
  (processEvent st e).1

/-- Run the listeners over a stream of events from a given state. -/
def collectFrom (st : CollectState) (evts : List PageEvent) : CollectState :=
  evts.foldl collectStep st

/-- The contents of the four collected arrays after a stream of events. -/
def collect (evts : List PageEvent) : CollectState :=
  collectFrom initState evts

/-- Record extracted from a request event (for stating append-only facts). -/
def reqRecOf : PageEvent → Option ReqRecord
  | PageEvent.request u m h p => some ⟨u, m, h, p⟩
  | _ => none

/-- Record extracted from a response event. -/
def respRecOf : PageEvent → Option RespRecord
  | PageEvent.response u s t => some ⟨u, s, t⟩
  | _ => none

/-- Record extracted from a console event. -/
def conRecOf : PageEvent → Option ConsoleRecord
  | PageEvent.consoleMsg ty tx loc => some ⟨ty, tx, loc⟩
  | _ => none

/-- Record extracted from a pageerror event. -/
def errRecOf : PageEvent → Option PageErr
  | PageEvent.pageError m s => some ⟨m, s⟩
  | _ => none

/-! ### Hardcoded constants of the script -/

/-- The hardcoded navigation target (line 55). -/
def targetUrl : String := "http://localhost:1313/posts/7/"

/-- The hardcoded report output path (line 191). -/
def reportPath : String := "/Users/nio/ddnio.github.io/giscus-diagnostic-report.json"

/-- The hardcoded screenshot output path (line 198). -/
def screenshotPath : String := "/Users/nio/ddnio.github.io/giscus-screenshot.png"

/-- Selector of the Giscus script tag query (line 64). -/
def scriptSel : String := "script[src*=\"giscus\"]"

/-- Selector of the Giscus iframe query (line 95). -/
def iframeSel : String := "iframe.giscus-frame"

/-- Selector of the Giscus container query (line 142). -/
def containerSel : String := ".giscus"

/-- The twelve attributes read by `giscusScript.evaluate` (lines 69-84),
in `Object.entries` (insertion) order. -/
def attrKeys : List String :=
  ["data-repo", "data-repo-id", "data-category", "data-category-id",
   "data-mapping", "data-strict", "data-reactions-enabled",
   "data-emit-metadata", "data-input-position", "data-theme",
   "data-lang", "crossorigin"]

/-! ### The environment of one run -/

/-- The element handle returned for the Giscus script tag, exposing its
attributes (`getAttribute` returns `null` as `none`). -/
structure ScriptEl where
  getAttribute : String → Option String

/-- Everything one invocation observes from the outside world. -/
structure Env where
  /-- Browser events delivered to the listeners during the session. -/
  events : List PageEvent
  /-- Result of `page.$('script[src*="giscus"]')`. -/
  scriptEl : Option ScriptEl
  /-- Result of `page.$('iframe.giscus-frame')`; the inner option is the
  `src` attribute of the found iframe. -/
  iframeEl : Option (Option String)
  /-- Result of `page.$('.giscus')` together with its `innerHTML`. -/
  containerHTML : Option String
  /-- Value of `new Date().toISOString()` at report time. -/
  timestamp : String
  /-- Index (among the fallible operations of the `try` block, in
  execution order) of the operation that throws; `none` when nothing
  throws. -/
  failAt : Option Nat
  /-- Message of the thrown error (relevant only when `failAt` hits). -/
  failMsg : String

/-- Line 111: `requests.filter(r => r.url.includes('giscus'))`. -/
def giscusRequests (env : Env) : List ReqRecord :=
  (collect env.events).requests.filter (fun r => jsIncludes r.url "giscus")

/-- Line 127: `responses.filter(r => r.url.includes('giscus'))`. -/
def giscusResponses (env : Env) : List RespRecord :=
  (collect env.events).responses.filter (fun r => jsIncludes r.url "giscus")

/-- The report object of lines 178-187. -/
def reportOf (env : Env) : Report :=
  { timestamp := env.timestamp
    url := targetUrl
    giscusScript := if env.scriptEl.isSome then "found" else "not found"
    giscusIframe := if env.iframeEl.isSome then "found" else "not found"
    requests := giscusRequests env
    responses := giscusResponses env
    consoleLogs := (collect env.events).consoleLogs
    pageErrors := (collect env.events).pageErrors }

/-! ### The try-block body as a list of operations -/

/-- One operation of the `try` block: an infallible `console.log`, or a
fallible awaited / throwing operation emitting its effect on success. -/
inductive Op where
  | log (e : Effect)
  | await (e : Effect)
deriving DecidableEq

/-- The effect an operation produces when it succeeds. -/
def opEff : Op → Effect
  | Op.log e => e
  | Op.await e => e

/-- Lines 64-92: the script-tag section. -/
def scriptSection : Option ScriptEl → List Op
  | none => [Op.log (Effect.consoleLog "✗ 未找到 Giscus 脚本标签")]
  | some el =>
      [Op.await (Effect.getAttr scriptSel "src"),
       Op.log (Effect.consoleLog ("✓ 找到 Giscus 脚本: " ++ strOfOpt (el.getAttribute "src"))),
       Op.await (Effect.evalAttrs scriptSel),
       Op.log (Effect.consoleLog "\nGiscus 属性配置:")]
      ++ attrKeys.map
          (fun k => Op.log (Effect.consoleLog ("  " ++ k ++ ": " ++ strOfOpt (el.getAttribute k))))

/-- Lines 95-108: the iframe section. -/
def iframeSection : Option (Option String) → List Op
  | none => [Op.log (Effect.consoleLog "✗ 未找到 Giscus iframe")]
  | some src =>
      [Op.await (Effect.getAttr iframeSel "src"),
       Op.log (Effect.consoleLog "✓ 找到 Giscus iframe"),
       Op.log (Effect.consoleLog ("iframe src: " ++ strOfOpt src)),
       Op.log (Effect.consoleLog ("iframe src 长度: " ++ toString (jsCondLen src)))]
      ++ (if jsTruthyStr src = true ∧ 2000 < jsCondLen src then
            [Op.log (Effect.consoleLog
               ("⚠️  警告: iframe src URL 过长 (>" ++ toString (jsCondLen src) ++ " 字符)")),
             Op.log (Effect.consoleLog "这可能导致 URI_TOO_LONG 错误")]
          else [])

/-- Loop body of lines 113-121 for one Giscus request (`idx` 0-based). -/
def reqItemOps (idx : Nat) (req : ReqRecord) : List Op :=
  [Op.log (Effect.consoleLog ("\n请求 #" ++ toString (idx + 1) ++ ":")),
   Op.log (Effect.consoleLog ("  Method: " ++ req.method)),
   Op.log (Effect.consoleLog ("  URL: " ++ req.url)),
   Op.log (Effect.consoleLog ("  URL 长度: " ++ toString req.url.length ++ " 字符"))]
  ++ (if 2000 < req.url.length then [Op.log (Effect.consoleLog "  ⚠️  URL 过长!")] else [])

/-- Lines 112-124: the Giscus-requests section. -/
def requestsSection (reqs : List ReqRecord) : List Op :=
  if 0 < reqs.length then (reqs.enum.map (fun p => reqItemOps p.1 p.2)).flatten
  else [Op.log (Effect.consoleLog "未找到 Giscus 相关的网络请求")]

/-- Loop body of lines 129-136 for one Giscus response (`idx` 0-based). -/
def respItemOps (idx : Nat) (res : RespRecord) : List Op :=
  [Op.log (Effect.consoleLog ("\n响应 #" ++ toString (idx + 1) ++ ":")),
   Op.log (Effect.consoleLog ("  Status: " ++ toString res.status ++ " " ++ res.statusText)),
   Op.log (Effect.consoleLog ("  URL: " ++ res.url))]
  ++ (if 400 ≤ res.status then [Op.log (Effect.consoleLog "  ⚠️  请求失败!")] else [])

/-- Lines 128-139: the Giscus-responses section. -/
def responsesSection (resps : List RespRecord) : List Op :=
  if 0 < resps.length then (resps.enum.map (fun p => respItemOps p.1 p.2)).flatten
  else [Op.log (Effect.consoleLog "未找到 Giscus 相关的响应")]

/-- Lines 142-151: the `.giscus` container section. -/
def containerSection : Option String → List Op
  | none => [Op.log (Effect.consoleLog "未找到 .giscus 容器")]
  | some html =>
      [Op.await (Effect.innerHTML containerSel),
       Op.log (Effect.consoleLog (jsSubstringTo html 1000))]
      ++ (if 1000 < html.length then
            [Op.log (Effect.consoleLog ("\n... (总共 " ++ toString html.length ++ " 字符)"))]
          else [])

/-- Lines 153-162: the console-errors section. -/
def consoleErrorSection (logs : List ConsoleRecord) : List Op :=
  let errors := logs.filter (fun l => l.type == "error")
  if 0 < errors.length then
    (errors.enum.map (fun p =>
      [Op.log (Effect.consoleLog ("\n错误 #" ++ toString (p.1 + 1) ++ ":")),
       Op.log (Effect.consoleLog ("  " ++ p.2.text))])).flatten
  else [Op.log (Effect.consoleLog "无控制台错误")]

/-- Loop body of lines 166-172 for one page error. -/
def pageErrItemOps (idx : Nat) (e : PageErr) : List Op :=
  [Op.log (Effect.consoleLog ("\n错误 #" ++ toString (idx + 1) ++ ":")),
   Op.log (Effect.consoleLog ("  " ++ e.message))]
  ++ (if jsTruthyStr e.stack then
        [Op.log (Effect.consoleLog ("  Stack: " ++ strOfOpt e.stack))]
      else [])

/-- Lines 164-175: the page-errors section. -/
def pageErrorSection (errs : List PageErr) : List Op :=
  if 0 < errs.length then (errs.enum.map (fun p => pageErrItemOps p.1 p.2)).flatten
  else [Op.log (Effect.consoleLog "无页面错误")]

/-- Lines 54-175 of the `try` block, before the report is built. -/
def opsPre (env : Env) : List Op :=
  [Op.log (Effect.consoleLog "\n=== 开始访问页面 ===\n"),
   Op.await (Effect.navigate targetUrl "networkidle" 30000),
   Op.await (Effect.wait 5000),
   Op.log (Effect.consoleLog "\n=== 检查 Giscus 脚本标签 ===\n"),
   Op.await (Effect.query scriptSel)]
  ++ scriptSection env.scriptEl
  ++ [Op.log (Effect.consoleLog "\n=== 检查 Giscus iframe ===\n"),
      Op.await (Effect.query iframeSel)]
  ++ iframeSection env.iframeEl
  ++ [Op.log (Effect.consoleLog "\n=== Giscus 相关的网络请求 ===\n")]
  ++ requestsSection (giscusRequests env)
  ++ [Op.log (Effect.consoleLog "\n=== Giscus 相关的响应 ===\n")]
  ++ responsesSection (giscusResponses env)
  ++ [Op.log (Effect.consoleLog "\n=== 页面 HTML 中的 Giscus 部分 ===\n"),
      Op.await (Effect.query containerSel)]
  ++ containerSection env.containerHTML
  ++ [Op.log (Effect.consoleLog "\n=== 控制台错误 ===\n")]
  ++ consoleErrorSection (collect env.events).consoleLogs
  ++ [Op.log (Effect.consoleLog "\n=== 页面错误 ===\n")]
  ++ pageErrorSection (collect env.events).pageErrors

/-- Lines 177-201: report write and screenshot. -/
def reportTail (env : Env) : List Op :=
  [Op.await (Effect.writeFile reportPath (reportOf env)),
   Op.log (Effect.consoleLog "\n=== 详细报告已保存到 giscus-diagnostic-report.json ===\n"),
   Op.await (Effect.screenshot screenshotPath true),
   Op.log (Effect.consoleLog "页面截图已保存到 giscus-screenshot.png\n")]

/-- The whole `try` block body. -/
def opsOf (env : Env) : List Op := opsPre env ++ reportTail env

/-! ### Executing the operations -/

/-- Run operations in order.  `k` counts the fallible operations already
executed; when `failAt = some n` the `n`-th fallible operation throws
`msg` instead of producing its effect, and everything after it is
skipped.  Returns the emitted effects and the thrown error, if any. -/
def execOps (failAt : Option Nat) (msg : String) :
    List Op → Nat → List Effect × Option String
  | [], _ => ([], none)
  | Op.log e :: rest, k =>
      (e :: (execOps failAt msg rest k).1, (execOps failAt msg rest k).2)
  | Op.await e :: rest, k =>
      if failAt = some k then ([], some msg)
      else
        (e :: (execOps failAt msg rest (k + 1)).1, (execOps failAt msg rest (k + 1)).2)

/-- Effects emitted by the `try` block body. -/
def mainEffs (env : Env) : List Effect :=
  (execOps env.failAt env.failMsg (opsOf env) 0).1

/-- The error thrown by the `try` block body, if any. -/
def mainErr (env : Env) : Option String :=
  (execOps env.failAt env.failMsg (opsOf env) 0).2

/-- Lines 203-204: the `catch` handler logs the error once. -/
def catchEffs (env : Env) : List Effect :=
  match mainErr env with
  | some m => [Effect.consoleError ("执行过程中出错: " ++ m)]
  | none => []

/-- The full effect trace of one invocation: setup (lines 4-6), `try`
body, `catch` handler, `finally` close (line 206). -/
def run (env : Env) : List Effect :=
  [Effect.launch false, Effect.newContext, Effect.newPage]
    ++ mainEffs env ++ catchEffs env ++ [Effect.closeBrowser]

/-! ### Effect classifiers -/

/-- Is the effect a `console.error`? -/
def isErrEff : Effect → Bool
  | Effect.consoleError _ => true
  | _ => false

/-- Is the effect a file write? -/
def isWriteEff : Effect → Bool
  | Effect.writeFile _ _ => true
  | _ => false

/-- Is the effect a screenshot capture? -/
def isShotEff : Effect → Bool
  | Effect.screenshot _ _ => true
  | _ => false

/-- Is the effect an output file production (report write or screenshot)? -/
def isFileEff (e : Effect) : Bool := isWriteEff e || isShotEff e

/-- Is the effect a browser-session step (launch, context, page,
navigation, wait, `page.$` DOM query)? -/
def isSessionEff : Effect → Bool
  | Effect.launch _ => true
  | Effect.newContext => true
  | Effect.newPage => true
  | Effect.navigate _ _ _ => true
  | Effect.wait _ => true
  | Effect.query _ => true
  | _ => false

/-- Does the effect use only the hardcoded URL and output paths? -/
def pathsFixedOk : Effect → Bool
  | Effect.navigate u _ _ => u == targetUrl
  | Effect.writeFile p _ => p == reportPath
  | Effect.screenshot p _ => p == screenshotPath
  | _ => true

/-- Effects produced by the data-dependent print/inspect parts of the
body (console output and element-handle reads). -/
def dynEff : Effect → Bool
  | Effect.consoleLog _ => true
  | Effect.getAttr _ _ => true
  | Effect.evalAttrs _ => true
  | Effect.innerHTML _ => true
  | _ => false

/-- The effects of the unconditional browser-session skeleton of the
`try` block, in execution order. -/
def sessionSkel : List Effect :=
  [Effect.navigate targetUrl "networkidle" 30000, Effect.wait 5000,
   Effect.query scriptSel, Effect.query iframeSel, Effect.query containerSel]

/-! ### Concrete sample environments -/

/-- A run in which everything is found and nothing throws. -/
def envNice : Env :=
  { events := [PageEvent.request "https://giscus.app/client.js" "GET" [] none,
               PageEvent.response "https://giscus.app/client.js" 200 "OK",
               PageEvent.consoleMsg "error" "boom" ⟨"u", 1, 2⟩,
               PageEvent.pageError "pe" (some "st")],
    scriptEl := some ⟨fun _ => some "https://giscus.app/client.js"⟩,
    iframeEl := some (some "https://giscus.app/widget"),
    containerHTML := some "<div></div>",
    timestamp := "2024-01-01T00:00:00.000Z",
    failAt := none,
    failMsg := "" }

/-- A run whose very first awaited operation (`page.goto`) throws. -/
def envBoom : Env :=
  { events := [], scriptEl := none, iframeEl := none, containerHTML := none,
    timestamp := "t", failAt := some 0, failMsg := "boom" }

/-- A run that captured one non-Giscus network request. -/
def envC2 : Env :=
  { events := [PageEvent.request "http://localhost:1313/posts/7/" "GET" [] none],
    scriptEl := none, iframeEl := none, containerHTML := none,
    timestamp := "2024-01-01T00:00:00.000Z", failAt := none, failMsg := "" }

/-- A run that captured one Giscus response with status 399. -/
def env3a : Env :=
  { events := [PageEvent.response "https://giscus.app/api" 399 "x"],
    scriptEl := none, iframeEl := none, containerHTML := none,
    timestamp := "t", failAt := none, failMsg := "" }

/-- The same run with the response status raised to 400. -/
def env3b : Env :=
  { env3a with events := [PageEvent.response "https://giscus.app/api" 400 "x"] }

end CheckGiscus

namespace CheckGiscus

/-! ### Basic facts about `execOps` -/

/-- The effects a run of the operations emits are the effects of an
initial segment of the operation list. -/
theorem execOps_take (failAt : Option Nat) (msg : String) :
    ∀ (ops : List Op) (k : Nat),
      ∃ n, (execOps failAt msg ops k).1 = (ops.take n).map opEff := by
  intro ops
  induction ops with
  | nil => exact fun _ => ⟨0, rfl⟩
  | cons op rest ih =>
    intro k
    cases op with
    | log e =>
      obtain ⟨n, hn⟩ := ih k
      exact ⟨n + 1, by simp [execOps, opEff, hn]⟩
    | await e =>
      by_cases hp : failAt = some k
      · exact ⟨0, by simp [execOps, hp]⟩
      · obtain ⟨n, hn⟩ := ih (k + 1)
        exact ⟨n + 1, by simp [execOps, hp, opEff, hn]⟩

/-- When the run of the operations does not throw, every operation's
effect is emitted. -/
theorem execOps_eq_of_no_err (failAt : Option Nat) (msg : String) :
    ∀ (ops : List Op) (k : Nat),
      (execOps failAt msg ops k).2 = none →
      (execOps failAt msg ops k).1 = ops.map opEff := by
  intro ops
  induction ops with
  | nil => intro k _; rfl
  | cons op rest ih =>
    intro k h
    cases op with
    | log e =>
      simp [execOps, opEff] at h ⊢
      exact ih k h
    | await e =>
      by_cases hp : failAt = some k
      · simp [execOps, hp] at h
      · simp [execOps, hp, opEff] at h ⊢
        exact ih (k + 1) h

end CheckGiscus

namespace CheckGiscus

/-! ### Classifying the operations of the try block -/

theorem dyn_not_err (e : Effect) (h : dynEff e = true) : isErrEff e = false := by
  cases e <;> simp_all [dynEff, isErrEff]

theorem dyn_not_file (e : Effect) (h : dynEff e = true) : isFileEff e = false := by
  cases e <;> simp_all [dynEff, isFileEff, isWriteEff, isShotEff]

theorem dyn_not_session (e : Effect) (h : dynEff e = true) : isSessionEff e = false := by
  cases e <;> simp_all [dynEff, isSessionEff]

theorem dyn_paths_ok (e : Effect) (h : dynEff e = true) : pathsFixedOk e = true := by
  cases e <;> simp_all [dynEff, pathsFixedOk]

/-- Every operation of the script-tag section is a data-dependent
print/inspect operation. -/
theorem scriptSection_ok (o : Option ScriptEl) :
    ∀ op ∈ scriptSection o, dynEff (opEff op) = true := by
  cases o with
  | none => decide
  | some el =>
    simp only [scriptSection, List.forall_mem_append]
    constructor
    · intro op h
      simp at h
      rcases h with rfl | rfl | rfl | rfl <;> rfl
    · intro op h
      rcases List.mem_map.1 h with ⟨k, _, rfl⟩
      rfl

/-- Every operation of the iframe section is a data-dependent
print/inspect operation. -/
theorem iframeSection_ok (o : Option (Option String)) :
    ∀ op ∈ iframeSection o, dynEff (opEff op) = true := by
  cases o with
  | none => decide
  | some src =>
    simp only [iframeSection, List.forall_mem_append]
    constructor
    · intro op h
      simp at h
      rcases h with rfl | rfl | rfl | rfl <;> rfl
    · intro op h
      split at h
      · simp at h
        rcases h with rfl | rfl <;> rfl
      · simp at h

theorem reqItemOps_ok (i : Nat) (r : ReqRecord) :
    ∀ op ∈ reqItemOps i r, dynEff (opEff op) = true := by
  simp only [reqItemOps, List.forall_mem_append]
  constructor
  · intro op h
    simp at h
    rcases h with rfl | rfl | rfl | rfl <;> rfl
  · intro op h
    split at h
    · simp at h
      subst h
      rfl
    · simp at h

/-- Every operation of the Giscus-requests section is a data-dependent
print/inspect operation. -/
theorem requestsSection_ok (reqs : List ReqRecord) :
    ∀ op ∈ requestsSection reqs, dynEff (opEff op) = true := by
  intro op h
  simp only [requestsSection] at h
  split at h
  · rcases List.mem_flatten.1 h with ⟨l, hl, hop⟩
    rcases List.mem_map.1 hl with ⟨p, _, rfl⟩
    exact reqItemOps_ok p.1 p.2 op hop
  · simp at h
    subst h
    rfl

theorem respItemOps_ok (i : Nat) (r : RespRecord) :
    ∀ op ∈ respItemOps i r, dynEff (opEff op) = true := by
  simp only [respItemOps, List.forall_mem_append]
  constructor
  · intro op h
    simp at h
    rcases h with rfl | rfl | rfl <;> rfl
  · intro op h
    split at h
    · simp at h
      subst h
      rfl
    · simp at h

/-- Every operation of the Giscus-responses section is a data-dependent
print/inspect operation. -/
theorem responsesSection_ok (resps : List RespRecord) :
    ∀ op ∈ responsesSection resps, dynEff (opEff op) = true := by
  intro op h
  simp only [responsesSection] at h
  split at h
  · rcases List.mem_flatten.1 h with ⟨l, hl, hop⟩
    rcases List.mem_map.1 hl with ⟨p, _, rfl⟩
    exact respItemOps_ok p.1 p.2 op hop
  · simp at h
    subst h
    rfl

/-- Every operation of the container section is a data-dependent
print/inspect operation. -/
theorem containerSection_ok (o : Option String) :
    ∀ op ∈ containerSection o, dynEff (opEff op) = true := by
  cases o with
  | none => decide
  | some html =>
    simp only [containerSection, List.forall_mem_append]
    constructor
    · intro op h
      simp at h
      rcases h with rfl | rfl <;> rfl
    · intro op h
      split at h
      · simp at h
        subst h
        rfl
      · simp at h

/-- Every operation of the console-errors section is a data-dependent
print/inspect operation. -/
theorem consoleErrorSection_ok (logs : List ConsoleRecord) :
    ∀ op ∈ consoleErrorSection logs, dynEff (opEff op) = true := by
  intro op h
  simp only [consoleErrorSection] at h
  split at h
  · rcases List.mem_flatten.1 h with ⟨l, hl, hop⟩
    rcases List.mem_map.1 hl with ⟨p, _, rfl⟩
    simp at hop
    rcases hop with rfl | rfl <;> rfl
  · simp at h
    subst h
    rfl

theorem pageErrItemOps_ok (i : Nat) (e : PageErr) :
    ∀ op ∈ pageErrItemOps i e, dynEff (opEff op) = true := by
  simp only [pageErrItemOps, List.forall_mem_append]
  constructor
  · intro op h
    simp at h
    rcases h with rfl | rfl <;> rfl
  · intro op h
    split at h
    · simp at h
      subst h
      rfl
    · simp at h

/-- Every operation of the page-errors section is a data-dependent
print/inspect operation. -/
theorem pageErrorSection_ok (errs : List PageErr) :
    ∀ op ∈ pageErrorSection errs, dynEff (opEff op) = true := by
  intro op h
  simp only [pageErrorSection] at h
  split at h
  · rcases List.mem_flatten.1 h with ⟨l, hl, hop⟩
    rcases List.mem_map.1 hl with ⟨p, _, rfl⟩
    exact pageErrItemOps_ok p.1 p.2 op hop
  · simp at h
    subst h
    rfl

/-- Every operation before the report step is either a data-dependent
print/inspect operation or an unconditional browser-session step. -/
theorem opsPre_ok (env : Env) :
    ∀ op ∈ opsPre env, dynEff (opEff op) = true ∨ opEff op ∈ sessionSkel := by
  simp only [opsPre, List.forall_mem_append]
  repeat' apply And.intro
  all_goals
    first
      | decide
      | exact fun op h => Or.inl (scriptSection_ok env.scriptEl op h)
      | exact fun op h => Or.inl (iframeSection_ok env.iframeEl op h)
      | exact fun op h => Or.inl (requestsSection_ok (giscusRequests env) op h)
      | exact fun op h => Or.inl (responsesSection_ok (giscusResponses env) op h)
      | exact fun op h => Or.inl (containerSection_ok env.containerHTML op h)
      | exact fun op h => Or.inl (consoleErrorSection_ok (collect env.events).consoleLogs op h)
      | exact fun op h => Or.inl (pageErrorSection_ok (collect env.events).pageErrors op h)

/-- Every operation of the whole `try` block is a data-dependent
print/inspect operation, a session step, or one of the two file outputs. -/
theorem opsOf_ok (env : Env) :
    ∀ op ∈ opsOf env,
      dynEff (opEff op) = true ∨ opEff op ∈ sessionSkel ∨
        opEff op ∈ [Effect.writeFile reportPath (reportOf env),
                    Effect.screenshot screenshotPath true] := by
  simp only [opsOf, List.forall_mem_append]
  constructor
  · intro op h
    rcases opsPre_ok env op h with h' | h'
    · exact Or.inl h'
    · exact Or.inr (Or.inl h')
  · intro op h
    simp [reportTail] at h
    rcases h with rfl | rfl | rfl | rfl
    · right; right; simp [opEff]
    · left; rfl
    · right; right; simp [opEff]
    · left; rfl

end CheckGiscus

namespace CheckGiscus

/-! ### Facts about the emitted trace -/

theorem mainEffs_mem (env : Env) (e : Effect) (he : e ∈ mainEffs env) :
    ∃ op ∈ opsOf env, opEff op = e := by
  obtain ⟨n, hn⟩ := execOps_take env.failAt env.failMsg (opsOf env) 0
  simp only [mainEffs] at he
  rw [hn] at he
  rcases List.mem_map.1 he with ⟨op, hop, rfl⟩
  exact ⟨op, List.mem_of_mem_take hop, rfl⟩

/-- A pointwise property that holds of every effect class the body can
emit holds of every emitted effect. -/
theorem mainEffs_all (env : Env) (p : Effect → Bool)
    (hdyn : ∀ e, dynEff e = true → p e = true)
    (hskel : ∀ e ∈ sessionSkel, p e = true)
    (hw : p (Effect.writeFile reportPath (reportOf env)) = true)
    (hs : p (Effect.screenshot screenshotPath true) = true) :
    ∀ e ∈ mainEffs env, p e = true := by
  intro e he
  rcases mainEffs_mem env e he with ⟨op, hop, rfl⟩
  rcases opsOf_ok env op hop with h | h | h
  · exact hdyn _ h
  · exact hskel _ h
  · simp at h
    rcases h with h | h <;> rw [h] <;> assumption

/-- The body never calls `console.error`. -/
theorem mainEffs_countP_err (env : Env) : (mainEffs env).countP isErrEff = 0 := by
  rw [List.countP_eq_zero]
  intro e he
  have h := mainEffs_all env (fun e => !isErrEff e)
    (fun e h => by simp [dyn_not_err e h]) (by decide)
    (by simp [isErrEff]) (by simp [isErrEff]) e he
  simp at h
  simp [h]

theorem filter_map_nil (p : Effect → Bool) (l : List Op)
    (h : ∀ op ∈ l, p (opEff op) = false) : (l.map opEff).filter p = [] := by
  rw [List.filter_eq_nil_iff]
  intro e he
  rcases List.mem_map.1 he with ⟨op, hop, rfl⟩
  simp [h op hop]

theorem countP_map_nil (p : Effect → Bool) (l : List Op)
    (h : ∀ op ∈ l, p (opEff op) = false) : (l.map opEff).countP p = 0 := by
  rw [List.countP_eq_zero]
  intro e he
  rcases List.mem_map.1 he with ⟨op, hop, rfl⟩
  simp [h op hop]

/-- No operation before the report step produces an output file. -/
theorem opsPre_not_file (env : Env) :
    ∀ op ∈ opsPre env, isFileEff (opEff op) = false := by
  intro op h
  rcases opsPre_ok env op h with h' | h'
  · exact dyn_not_file _ h'
  · simp [sessionSkel] at h'
    rcases h' with h' | h' | h' | h' | h' <;> rw [h'] <;> rfl

/-- Filtering the pre-report trace to session steps yields exactly the
unconditional skeleton. -/
theorem sessionFilter_pre (env : Env) :
    ((opsPre env).map opEff).filter isSessionEff = sessionSkel := by
  have h1 := filter_map_nil isSessionEff _
    (fun op h => dyn_not_session _ (scriptSection_ok env.scriptEl op h))
  have h2 := filter_map_nil isSessionEff _
    (fun op h => dyn_not_session _ (iframeSection_ok env.iframeEl op h))
  have h3 := filter_map_nil isSessionEff _
    (fun op h => dyn_not_session _ (requestsSection_ok (giscusRequests env) op h))
  have h4 := filter_map_nil isSessionEff _
    (fun op h => dyn_not_session _ (responsesSection_ok (giscusResponses env) op h))
  have h5 := filter_map_nil isSessionEff _
    (fun op h => dyn_not_session _ (containerSection_ok env.containerHTML op h))
  have h6 := filter_map_nil isSessionEff _
    (fun op h => dyn_not_session _ (consoleErrorSection_ok (collect env.events).consoleLogs op h))
  have h7 := filter_map_nil isSessionEff _
    (fun op h => dyn_not_session _ (pageErrorSection_ok (collect env.events).pageErrors op h))
  simp only [opsPre, List.map_append, List.filter_append, h1, h2, h3, h4, h5, h6, h7]
  decide

/-- The pre-report trace contains no output-file effect. -/
theorem fileFilter_pre (env : Env) :
    ((opsPre env).map opEff).filter isFileEff = [] :=
  filter_map_nil _ _ (opsPre_not_file env)

/-! ### The listeners as append-only folds -/

theorem collectFrom_cons (st : CollectState) (e : PageEvent) (rest : List PageEvent) :
    collectFrom st (e :: rest) = collectFrom (collectStep st e) rest := rfl

/-- Each listener appends exactly the records of its own events, in
delivery order, and touches no other list. -/
theorem collectFrom_fields (evts : List PageEvent) :
    ∀ st : CollectState,
      (collectFrom st evts).requests = st.requests ++ evts.filterMap reqRecOf ∧
      (collectFrom st evts).responses = st.responses ++ evts.filterMap respRecOf ∧
      (collectFrom st evts).consoleLogs = st.consoleLogs ++ evts.filterMap conRecOf ∧
      (collectFrom st evts).pageErrors = st.pageErrors ++ evts.filterMap errRecOf := by
  induction evts with
  | nil => intro st; simp [collectFrom]
  | cons e rest ih =>
    intro st
    cases e <;>
      simp [collectFrom_cons, collectStep, processEvent, reqRecOf, respRecOf,
        conRecOf, errRecOf, List.filterMap_cons, ih]

/-- The four collected arrays hold exactly the records of the delivered
events of the matching kind, in order. -/
theorem collect_fields (evts : List PageEvent) :
    (collect evts).requests = evts.filterMap reqRecOf ∧
    (collect evts).responses = evts.filterMap respRecOf ∧
    (collect evts).consoleLogs = evts.filterMap conRecOf ∧
    (collect evts).pageErrors = evts.filterMap errRecOf := by
  have h := collectFrom_fields evts initState
  simpa [collect, initState] using h

end CheckGiscus

namespace CheckGiscus

/-! ### Counting the output-file effects -/

/-- In every run — throwing or not — at most one report write occurs,
and a screenshot occurs only if the report write already did. -/
theorem run_write_shot_counts (env : Env) :
    (run env).countP isShotEff ≤ (run env).countP isWriteEff ∧
    (run env).countP isWriteEff ≤ 1 := by
  obtain ⟨n, hn⟩ := execOps_take env.failAt env.failMsg (opsOf env) 0
  have hm : mainEffs env =
      ((opsPre env).take n).map opEff ++
        ((reportTail env).take (n - (opsPre env).length)).map opEff := by
    have h' : mainEffs env = ((opsOf env).take n).map opEff := hn
    rw [h']
    simp only [opsOf, List.take_append_eq_append_take, List.map_append]
  have hw0 : (((opsPre env).take n).map opEff).countP isWriteEff = 0 := by
    apply countP_map_nil
    intro op hop
    have h := opsPre_not_file env op (List.mem_of_mem_take hop)
    simp [isFileEff] at h
    exact h.1
  have hs0 : (((opsPre env).take n).map opEff).countP isShotEff = 0 := by
    apply countP_map_nil
    intro op hop
    have h := opsPre_not_file env op (List.mem_of_mem_take hop)
    simp [isFileEff] at h
    exact h.2
  have hcatch : ∀ p : Effect → Bool, (∀ s, p (Effect.consoleError s) = false) →
      (catchEffs env).countP p = 0 := by
    intro p hp
    cases h : mainErr env with
    | none => simp [catchEffs, h]
    | some m => simp [catchEffs, h, List.countP_cons, hp]
  have htail : (((reportTail env).take (n - (opsPre env).length)).map opEff).countP isShotEff ≤
        (((reportTail env).take (n - (opsPre env).length)).map opEff).countP isWriteEff ∧
      (((reportTail env).take (n - (opsPre env).length)).map opEff).countP isWriteEff ≤ 1 := by
    rcases hm' : n - (opsPre env).length with _ | _ | _ | _ | k <;>
      simp [reportTail, List.take_succ_cons, List.take_nil, List.take_zero,
        List.countP_cons, isWriteEff, isShotEff, opEff]
  have key : ∀ p : Effect → Bool, (∀ s, p (Effect.consoleError s) = false) →
      (run env).countP p =
        List.countP p [Effect.launch false, Effect.newContext, Effect.newPage]
          + (((opsPre env).take n).map opEff).countP p
          + (((reportTail env).take (n - (opsPre env).length)).map opEff).countP p
          + List.countP p [Effect.closeBrowser] := by
    intro p hp
    show List.countP p ([Effect.launch false, Effect.newContext, Effect.newPage]
        ++ mainEffs env ++ catchEffs env ++ [Effect.closeBrowser]) = _
    rw [List.countP_append, List.countP_append, List.countP_append, hm,
      List.countP_append, hcatch p hp]
    omega
  have e1 := key isWriteEff (fun _ => rfl)
  have e2 := key isShotEff (fun _ => rfl)
  have c1 : List.countP isWriteEff
      [Effect.launch false, Effect.newContext, Effect.newPage] = 0 := by decide
  have c2 : List.countP isShotEff
      [Effect.launch false, Effect.newContext, Effect.newPage] = 0 := by decide
  have c3 : List.countP isWriteEff [Effect.closeBrowser] = 0 := by decide
  have c4 : List.countP isShotEff [Effect.closeBrowser] = 0 := by decide
  constructor
  · rw [e1, e2, hw0, hs0, c1, c2, c3, c4]
    omega
  · rw [e1, hw0, c1, c3]
    omega

end CheckGiscus

namespace CheckGiscus

/-! ### Claims -/

/-- C1: For every run of the diagnostic script, if any operation in the
main execution path (the `try` block) throws, the thrown error is
logged to the console exactly once — by the single catch-all handler,
since the main path itself never calls `console.error` — and in every
run, throwing or completing, the browser session is closed in the
cleanup step afterwards (the trace always ends with `browser.close()`).
Listener output is modelled separately by `processEvent` and the only
`console.error` a listener issues is prefixed `[PAGE ERROR]`, never the
catch-all's prefix. -/
theorem c1_catch_all_logs_once_then_close (env : Env) :
    (run env).getLast? = some Effect.closeBrowser ∧
    (run env).countP isErrEff = (if (mainErr env).isSome then 1 else 0) ∧
    ∀ m, mainErr env = some m →
      Effect.consoleError ("执行过程中出错: " ++ m) ∈ run env := by
  refine ⟨?_, ?_, ?_⟩
  · simp only [run]
    exact List.getLast?_concat _
  · simp only [run, List.countP_append]
    rw [mainEffs_countP_err]
    have h1 : List.countP isErrEff
        [Effect.launch false, Effect.newContext, Effect.newPage] = 0 := by decide
    have h2 : List.countP isErrEff [Effect.closeBrowser] = 0 := by decide
    cases h : mainErr env with
    | none =>
      have h3 : catchEffs env = [] := by simp [catchEffs, h]
      simp [h1, h2, h3]
    | some m =>
      have h3 : catchEffs env = [Effect.consoleError ("执行过程中出错: " ++ m)] := by
        simp [catchEffs, h]
      have h4 : List.countP isErrEff
          [Effect.consoleError ("执行过程中出错: " ++ m)] = 1 := by
        simp [List.countP_cons, isErrEff]
      simp [h1, h2, h3, h4]
  · intro m hm
    have h : Effect.consoleError ("执行过程中出错: " ++ m) ∈ catchEffs env := by
      simp [catchEffs, hm]
    simp only [run]
    exact List.mem_append.2 (Or.inl (List.mem_append.2 (Or.inr h)))

/-- Witness for C1 at a concrete run whose `page.goto` throws. -/
theorem c1_witness :
    mainErr envBoom = some "boom" ∧
    Effect.consoleError ("执行过程中出错: " ++ "boom") ∈ run envBoom ∧
    (run envBoom).getLast? = some Effect.closeBrowser :=
  ⟨by decide, (c1_catch_all_logs_once_then_close envBoom).2.2 "boom" (by decide),
   (c1_catch_all_logs_once_then_close envBoom).1⟩

/-- C4: in every run whose main path completes without throwing, the
script produces exactly two output files — the JSON report and the PNG
screenshot — with the report written before the screenshot. -/
theorem c4_two_output_files_report_first (env : Env) (h : mainErr env = none) :
    (run env).filter isFileEff =
      [Effect.writeFile reportPath (reportOf env),
       Effect.screenshot screenshotPath true] := by
  have hb : mainEffs env = (opsOf env).map opEff :=
    execOps_eq_of_no_err env.failAt env.failMsg (opsOf env) 0 h
  have hcat : catchEffs env = [] := by simp [catchEffs, h]
  have htail : ((reportTail env).map opEff).filter isFileEff =
      [Effect.writeFile reportPath (reportOf env),
       Effect.screenshot screenshotPath true] := by
    simp [reportTail, opEff, isFileEff, isWriteEff, isShotEff]
  simp only [run, hb, hcat, opsOf, List.map_append, List.filter_append,
    fileFilter_pre, htail]
  simp [isFileEff, isWriteEff, isShotEff]

/-- Witness for C4 at a concrete non-throwing run. -/
theorem c4_witness :
    (run envNice).filter isFileEff =
      [Effect.writeFile reportPath (reportOf envNice),
       Effect.screenshot screenshotPath true] :=
  c4_two_output_files_report_first envNice (by decide)

/-- C5: the script reads no input parameters: every navigation in every
run goes to the hardcoded target URL, every report write goes to the
hardcoded report path, and every screenshot goes to the hardcoded
screenshot path — identical on every run.  (The embedding's `Env`
contains only world observations: there is no CLI input at all.) -/
theorem c5_hardcoded_url_and_paths (env : Env) :
    (run env).all pathsFixedOk = true := by
  rw [List.all_eq_true]
  intro e he
  simp only [run] at he
  rcases List.mem_append.1 he with he | he
  · rcases List.mem_append.1 he with he | he
    · rcases List.mem_append.1 he with he | he
      · simp at he
        rcases he with rfl | rfl | rfl <;> rfl
      · exact mainEffs_all env pathsFixedOk dyn_paths_ok (by decide)
          (by simp [pathsFixedOk]) (by simp [pathsFixedOk]) e he
    · cases h : mainErr env with
      | none => simp [catchEffs, h] at he
      | some m =>
        simp [catchEffs, h] at he
        subst he
        rfl
  · simp at he
    subst he
    rfl

/-- C6: each of the four collected lists is mutated only by appending,
and each is appended to exclusively by its own listener: after any
event stream, each list equals its initial value followed by exactly
the records of the events of its own kind, in delivery order. -/
theorem c6_listeners_append_only (evts : List PageEvent) (st : CollectState) :
    (collectFrom st evts).requests = st.requests ++ evts.filterMap reqRecOf ∧
    (collectFrom st evts).responses = st.responses ++ evts.filterMap respRecOf ∧
    (collectFrom st evts).consoleLogs = st.consoleLogs ++ evts.filterMap conRecOf ∧
    (collectFrom st evts).pageErrors = st.pageErrors ++ evts.filterMap errRecOf :=
  collectFrom_fields evts st

/-- C7: in every non-throwing run the session steps of the trace are
exactly: one browser launch, one context, one page, one navigation to
the target URL, one fixed 5000 ms wait, and then the three DOM queries
— in this order, none repeated. -/
theorem c7_single_linear_session (env : Env) (h : mainErr env = none) :
    (run env).filter isSessionEff =
      [Effect.launch false, Effect.newContext, Effect.newPage,
       Effect.navigate targetUrl "networkidle" 30000, Effect.wait 5000,
       Effect.query scriptSel, Effect.query iframeSel, Effect.query containerSel] := by
  have hb : mainEffs env = (opsOf env).map opEff :=
    execOps_eq_of_no_err env.failAt env.failMsg (opsOf env) 0 h
  have hcat : catchEffs env = [] := by simp [catchEffs, h]
  have htail : ((reportTail env).map opEff).filter isSessionEff = [] := by
    simp [reportTail, opEff, isSessionEff]
  simp only [run, hb, hcat, opsOf, List.map_append, List.filter_append,
    sessionFilter_pre, htail]
  decide

/-- Witness for C7 at a concrete non-throwing run. -/
theorem c7_witness :
    (run envNice).filter isSessionEff =
      [Effect.launch false, Effect.newContext, Effect.newPage,
       Effect.navigate targetUrl "networkidle" 30000, Effect.wait 5000,
       Effect.query scriptSel, Effect.query iframeSel, Effect.query containerSel] :=
  c7_single_linear_session envNice (by decide)

end CheckGiscus

namespace CheckGiscus

/-- C8: a throw skips every remaining step of the main path — the
emitted effects are an initial segment of the body's operations, hence
no operation is retried — so at most one report write ever occurs, and
a screenshot occurs only in runs whose report write already occurred:
a throw before the report write produces neither output file. -/
theorem c8_failure_skips_rest_no_retry (env : Env) :
    (∃ n, mainEffs env = ((opsOf env).take n).map opEff) ∧
    (run env).countP isShotEff ≤ (run env).countP isWriteEff ∧
    (run env).countP isWriteEff ≤ 1 :=
  ⟨execOps_take env.failAt env.failMsg (opsOf env) 0, run_write_shot_counts env⟩

/-- C9: the report's `requests` and `responses` fields hold exactly the
captured request/response records whose URL contains the substring
`giscus`, in capture order, while `consoleLogs` and `pageErrors` hold
every captured console message and page error unfiltered. -/
theorem c9_report_giscus_filtering (env : Env) :
    (reportOf env).requests =
      (env.events.filterMap reqRecOf).filter (fun r => jsIncludes r.url "giscus") ∧
    (reportOf env).responses =
      (env.events.filterMap respRecOf).filter (fun r => jsIncludes r.url "giscus") ∧
    (reportOf env).consoleLogs = env.events.filterMap conRecOf ∧
    (reportOf env).pageErrors = env.events.filterMap errRecOf := by
  obtain ⟨h1, h2, h3, h4⟩ := collect_fields env.events
  exact ⟨by simp [reportOf, giscusRequests, h1],
         by simp [reportOf, giscusResponses, h2],
         by simp [reportOf, h3],
         by simp [reportOf, h4]⟩

/-- C10: the report's `giscusScript` field is `"found"` iff the DOM
query for the script selector returned a handle and `"not found"` iff
it did not; likewise `giscusIframe` for the iframe query. -/
theorem c10_found_fields (env : Env) :
    ((reportOf env).giscusScript = "found" ↔ env.scriptEl.isSome = true) ∧
    ((reportOf env).giscusScript = "not found" ↔ env.scriptEl.isSome = false) ∧
    ((reportOf env).giscusIframe = "found" ↔ env.iframeEl.isSome = true) ∧
    ((reportOf env).giscusIframe = "not found" ↔ env.iframeEl.isSome = false) := by
  cases hs : env.scriptEl <;> cases hi : env.iframeEl <;>
    simp [reportOf, hs, hi]

/-- Witness for C10 at a run with the script tag found and the iframe
absent. -/
theorem c10_witness :
    (reportOf envNice).giscusScript = "found" ∧
    (reportOf envC2).giscusIframe = "not found" :=
  ⟨(c10_found_fields envNice).1.mpr rfl, (c10_found_fields envC2).2.2.2.mpr rfl⟩

/-- C2 counterexample: the report does not capture all collected
requests — a captured request whose URL lacks the substring `giscus`
is omitted from the report's `requests` field. -/
theorem c2_counterexample :
    (reportOf envC2).requests ≠ (collect envC2.events).requests ∧
    (collect envC2.events).requests =
      [⟨"http://localhost:1313/posts/7/", "GET", [], none⟩] ∧
    (reportOf envC2).requests = [] := by
  refine ⟨by decide, by decide, by decide⟩

/-- C2 (amended): the JSON report captures the run's observations —
the captured network events whose URL contains `giscus`, all collected
console messages, all collected page errors, and the timestamp — and is
serialized at most once per invocation: exactly once, to the report
path, when the main path completes. -/
theorem c2_report_once_with_observations (env : Env) :
    (reportOf env).timestamp = env.timestamp ∧
    (reportOf env).requests =
      (collect env.events).requests.filter (fun r => jsIncludes r.url "giscus") ∧
    (reportOf env).responses =
      (collect env.events).responses.filter (fun r => jsIncludes r.url "giscus") ∧
    (reportOf env).consoleLogs = (collect env.events).consoleLogs ∧
    (reportOf env).pageErrors = (collect env.events).pageErrors ∧
    (run env).countP isWriteEff ≤ 1 ∧
    (mainErr env = none →
      (run env).filter isWriteEff = [Effect.writeFile reportPath (reportOf env)]) := by
  refine ⟨rfl, rfl, rfl, rfl, rfl, (run_write_shot_counts env).2, ?_⟩
  intro h
  have hb : mainEffs env = (opsOf env).map opEff :=
    execOps_eq_of_no_err env.failAt env.failMsg (opsOf env) 0 h
  have hcat : catchEffs env = [] := by simp [catchEffs, h]
  have hpre : ((opsPre env).map opEff).filter isWriteEff = [] := by
    apply filter_map_nil
    intro op hop
    have hf := opsPre_not_file env op hop
    simp [isFileEff] at hf
    exact hf.1
  have htail : ((reportTail env).map opEff).filter isWriteEff =
      [Effect.writeFile reportPath (reportOf env)] := by
    simp [reportTail, opEff, isWriteEff]
  simp only [run, hb, hcat, opsOf, List.map_append, List.filter_append, hpre, htail]
  simp [isWriteEff]

/-- Witness for C2 (amended) at a concrete non-throwing run. -/
theorem c2_witness :
    (reportOf envNice).timestamp = envNice.timestamp ∧
    (run envNice).filter isWriteEff =
      [Effect.writeFile reportPath (reportOf envNice)] :=
  ⟨(c2_report_once_with_observations envNice).1,
   (c2_report_once_with_observations envNice).2.2.2.2.2.2 (by decide)⟩

/-- C3 counterexample: the script does branch on a numeric threshold
over collected data.  Two runs identical except for one captured
response's status — 399 versus 400, with identical DOM query results —
produce different traces: the 400-run prints the extra warning line
`  ⚠️  请求失败!`, and its trace is one entry longer. -/
theorem c3_counterexample :
    Effect.consoleLog "  ⚠️  请求失败!" ∉ run env3a ∧
    Effect.consoleLog "  ⚠️  请求失败!" ∈ run env3b ∧
    (run env3a).length + 1 = (run env3b).length ∧
    env3a.scriptEl.isSome = env3b.scriptEl.isSome ∧
    env3a.iframeEl.isSome = env3b.iframeEl.isSome ∧
    env3a.containerHTML.isSome = env3b.containerHTML.isSome :=
  ⟨by decide, by decide, by decide, rfl, rfl, rfl⟩

/-- C3 (amended): besides presence/absence checks on DOM query results
and emptiness checks on the collected lists, the script also branches on
numeric thresholds over collected data and on stack truthiness: each
printed Giscus response gets an extra warning line exactly when its
status is at least 400; each printed Giscus request gets an extra
warning line exactly when its URL is longer than 2000 characters; a
found iframe gets two extra warning lines exactly when its `src` is
truthy and longer than 2000 characters; a found container gets an extra
total-length line exactly when its HTML is longer than 1000 characters;
and each printed page error gets an extra stack line exactly when its
stack is truthy. -/
theorem c3_numeric_threshold_branches (i : Nat) (r : RespRecord) (j : Nat) (q : ReqRecord)
    (src : Option String) (html : String) (k : Nat) (e : PageErr) :
    (respItemOps i r).length = (if 400 ≤ r.status then 4 else 3) ∧
    (reqItemOps j q).length = (if 2000 < q.url.length then 5 else 4) ∧
    (iframeSection (some src)).length =
      (if jsTruthyStr src = true ∧ 2000 < jsCondLen src then 6 else 4) ∧
    (containerSection (some html)).length = (if 1000 < html.length then 3 else 2) ∧
    (pageErrItemOps k e).length = (if jsTruthyStr e.stack = true then 3 else 2) := by
  refine ⟨?_, ?_, ?_, ?_, ?_⟩
  · by_cases h : 400 ≤ r.status <;> simp [respItemOps, h]
  · by_cases h : 2000 < q.url.length <;> simp [reqItemOps, h]
  · by_cases h : jsTruthyStr src = true ∧ 2000 < jsCondLen src <;> simp [iframeSection, h]
  · by_cases h : 1000 < html.length <;> simp [containerSection, h]
  · by_cases h : jsTruthyStr e.stack = true <;> simp [pageErrItemOps, h]

end CheckGiscus
